import Mathlib

/-!
Shallow embedding of the game core of Fruit_Jam_Fruitris (src/src/code.py):
tetromino catalog, piece state, rotation, collision detection, placement,
line clearing, scoring/leveling, the lock-event phase transition, and the
high-score save file.  The grid is a function over integer coordinates; a
displayio TileGrid access at an index outside the tile grid raises
IndexError (the upper-bound check in displayio catches negative indices via
unsigned conversion), which is modelled by Option-valued access: a result
of none marks an out-of-bounds access.  GRID_HEIGHT depends on the display
and is kept as a parameter H (26 on a 640x480 display).
-/

namespace Fruitris

/-- GRID_WIDTH = 10 (code.py line 38). -/
def GRID_WIDTH : Int := 10

/-- TETROMINO_SIZE = 4 (code.py line 40). -/
def TETROMINO_SIZE : Nat := 4

/-- The placed-block grid: cell values 0 (empty) or a tile id.  Only cells
with 0 <= x < GRID_WIDTH and 0 <= y < H are meaningful. -/
abbrev Grid := Int → Int → Nat

/-- One entry of the TETROMINOS catalog: a display tile id and a 4x4
pattern given as rows of 0/1 values. -/
structure TetrominoData where
  tile : Nat
  pattern : List (List Nat)
deriving Repr, DecidableEq

/-- The 7-entry TETROMINOS catalog (code.py lines 47-111), verbatim. -/
def TETROMINOS : List TetrominoData := [
  ⟨3, [[0, 0, 1, 0],
       [0, 0, 1, 0],
       [0, 0, 1, 0],
       [0, 0, 1, 0]]⟩,
  ⟨1, [[0, 0, 1, 0],
       [0, 1, 1, 0],
       [0, 1, 0, 0],
       [0, 0, 0, 0]]⟩,
  ⟨2, [[0, 1, 0, 0],
       [0, 1, 1, 0],
       [0, 0, 1, 0],
       [0, 0, 0, 0]]⟩,
  ⟨6, [[0, 0, 0, 0],
       [0, 1, 1, 0],
       [0, 1, 1, 0],
       [0, 0, 0, 0]]⟩,
  ⟨4, [[0, 0, 1, 0],
       [0, 1, 1, 0],
       [0, 0, 1, 0],
       [0, 0, 0, 0]]⟩,
  ⟨5, [[0, 0, 1, 0],
       [0, 0, 1, 0],
       [0, 1, 1, 0],
       [0, 0, 0, 0]]⟩,
  ⟨7, [[0, 1, 0, 0],
       [0, 1, 0, 0],
       [0, 1, 1, 0],
       [0, 0, 0, 0]]⟩ ]

/-- Read pattern cell at row r, column c; rows/columns outside the 4x4 box
read as 0.  patt[r][c] corresponds to self._tilegrid[c, r] in the source
(displayio TileGrid is indexed [x, y]). -/
def pattGet (patt : List (List Nat)) (r c : Nat) : Nat :=
  (patt.getD r []).getD c 0

/-- The active (or preview) tetromino: its current 4x4 pattern (the
contents of self._tilegrid, as 0/1 occupancy), its nonzero display tile
id, its grid position in tiles, and the rotation counter self._rotation. -/
structure Piece where
  pattern : List (List Nat)
  tile : Nat
  tile_x : Int
  tile_y : Int
  rot : Nat
deriving Repr, DecidableEq

/-- The 16 (i, j) loop indices of check_collide / place, in source order
(outer loop i = row, inner loop j = column). -/
def cellList : List (Nat × Nat) :=
  [(0, 0), (0, 1), (0, 2), (0, 3),
   (1, 0), (1, 1), (1, 2), (1, 3),
   (2, 0), (2, 1), (2, 2), (2, 3),
   (3, 0), (3, 1), (3, 2), (3, 3)]

/-- Row of the first occupied cell in the row-major scan of
Tetromino.__init__ (code.py lines 742-747: i = 0..15, x = i % 4,
y = i // 4; tile_y is set to -y at the first hit); 0 when no cell is
occupied (the loop then never assigns tile_y). -/
def firstOccRow (patt : List (List Nat)) : Nat :=
  match (List.range 16).find? (fun i => pattGet patt (i / 4) (i % 4) != 0) with
  | some i => i / 4
  | none => 0

/-- A freshly spawned active piece of shape k, as built by
get_next_tetromino (code.py lines 1070-1071): base orientation,
tile_x = (GRID_WIDTH - TETROMINO_SIZE) // 2, and the vertical offset of
Tetromino.__init__. -/
def spawnPiece (k : Nat) : Piece :=
  let td := TETROMINOS.getD k ⟨0, []⟩
  { pattern := td.pattern
    tile := td.tile
    tile_x := (GRID_WIDTH - (TETROMINO_SIZE : Int)) / 2
    tile_y := - (firstOccRow td.pattern : Int)
    rot := 0 }

/-- Tetromino._rotate_right (code.py lines 830-841): the copy is built as
grid[y][x] = self._tilegrid[TETROMINO_SIZE - y - 1, x], that is
new[y][x] = old[x][3 - y]. -/
def rotate_right_pattern (patt : List (List Nat)) : List (List Nat) :=
  (List.range 4).map fun y => (List.range 4).map fun x => pattGet patt x (3 - y)

/-- Tetromino._rotate_left (code.py lines 849-860): the copy is built as
grid[y][x] = self._tilegrid[y, TETROMINO_SIZE - x - 1], that is
new[y][x] = old[3 - x][y]. -/
def rotate_left_pattern (patt : List (List Nat)) : List (List Nat) :=
  (List.range 4).map fun y => (List.range 4).map fun x => pattGet patt (3 - x) y

/-- Cell-by-cell body of Tetromino.check_collide (code.py lines 767-781),
scanning the remaining (i, j) loop indices in source order.  For an
occupied cell the checks run in source order: horizontal bounds, bottom
bound, then the read tilegrid[tile_x, tile_y]; that read is in bounds
except when tile_y < 0, where displayio raises IndexError, modelled as
none. -/
def checkCollideAux (H : Int) (g : Grid) (patt : List (List Nat)) (px py : Int) :
    List (Nat × Nat) → Option Bool
  | [] => some false
  | c :: rest =>
    if pattGet patt c.1 c.2 ≠ 0 then
      let tx : Int := (c.2 : Int) + px
      let ty : Int := (c.1 : Int) + py
      if tx < 0 ∨ GRID_WIDTH ≤ tx then some true
      else if H ≤ ty then some true
      else if ty < 0 then none
      else if g tx ty ≠ 0 then some true
      else checkCollideAux H g patt px py rest
    else checkCollideAux H g patt px py rest

/-- Tetromino.check_collide(grid, x, y): test the pattern patt (the
piece's own pattern, or a candidate rotated copy) shifted by the offset
(dx, dy) from the piece's position. -/
def check_collide (H : Int) (g : Grid) (p : Piece) (patt : List (List Nat))
    (dx dy : Int) : Option Bool :=
  checkCollideAux H g patt (p.tile_x + dx) (p.tile_y + dy) cellList

/-- Tetromino.move (code.py lines 862-867): apply the delta iff
check_collide on the piece's own pattern reports no collision.  Returns
the success flag together with the updated piece. -/
def move (H : Int) (g : Grid) (p : Piece) (dx dy : Int) : Option (Bool × Piece) :=
  match check_collide H g p p.pattern dx dy with
  | none => none
  | some true => some (false, p)
  | some false => some (true, { p with tile_x := p.tile_x + dx, tile_y := p.tile_y + dy })

/-- Tetromino._wiggle (code.py lines 809-822): try the candidate pattern
at the current x, then at x - 1, then at x + 1; commit the pattern (and
the possibly shifted x) on the first fit, otherwise change nothing and
report failure.  force skips every collision check. -/
def wiggle (H : Int) (g : Grid) (p : Piece) (patt : List (List Nat))
    (force : Bool) : Option (Bool × Piece) :=
  if force then some (true, { p with pattern := patt })
  else match check_collide H g p patt 0 0 with
  | none => none
  | some false => some (true, { p with pattern := patt })
  | some true =>
    match check_collide H g p patt (-1) 0 with
    | none => none
    | some false => some (true, { p with tile_x := p.tile_x - 1, pattern := patt })
    | some true =>
      match check_collide H g p patt 1 0 with
      | none => none
      | some false => some (true, { p with tile_x := p.tile_x + 1, pattern := patt })
      | some true => some (false, p)

/-- Tetromino.rotate_right (code.py lines 824-828): wiggle the
right-rotated pattern in, advancing self._rotation modulo 4 on success. -/
def rotate_right (H : Int) (g : Grid) (p : Piece) (force : Bool) :
    Option (Bool × Piece) :=
  match wiggle H g p (rotate_right_pattern p.pattern) force with
  | none => none
  | some (true, q) => some (true, { q with rot := (q.rot + 1) % 4 })
  | some (false, q) => some (false, q)

/-- Tetromino.rotate_left (code.py lines 843-847): wiggle the left-rotated
pattern in, rewinding self._rotation modulo 4 on success ((r - 1) % 4 in
Python equals (r + 3) % 4 for r in 0..3). -/
def rotate_left (H : Int) (g : Grid) (p : Piece) (force : Bool) :
    Option (Bool × Piece) :=
  match wiggle H g p (rotate_left_pattern p.pattern) force with
  | none => none
  | some (true, q) => some (true, { q with rot := (q.rot + 3) % 4 })
  | some (false, q) => some (false, q)

/-- One write of Tetromino.place (code.py lines 801-807): copy the
occupied pattern cell into the grid when its absolute position is inside
(the write is guarded by 0 <= grid_x < GRID_WIDTH and
0 <= grid_y < GRID_HEIGHT); the written value self._tilegrid[x, y] is the
piece's tile id. -/
def placeCell (H : Int) (p : Piece) (g' : Grid) (c : Nat × Nat) : Grid :=
  let gx : Int := (c.2 : Int) + p.tile_x
  let gy : Int := (c.1 : Int) + p.tile_y
  if pattGet p.pattern c.1 c.2 ≠ 0 ∧ 0 ≤ gx ∧ gx < GRID_WIDTH ∧ 0 ≤ gy ∧ gy < H then
    fun a b => if a = gx ∧ b = gy then p.tile else g' a b
  else g'

/-- Tetromino.place, iterated over the 16 loop indices in source order. -/
def place (H : Int) (g : Grid) (p : Piece) : Grid :=
  cellList.foldl (placeCell H p) g

/-- Python range(lo, hi) over integers. -/
def intRange (lo hi : Int) : List Int :=
  (List.range (hi - lo).toNat).map fun k : Nat => lo + (k : Int)

/-- Python range(start, stop, -1) over integers. -/
def rangeDown (start stop : Int) : List Int :=
  (List.range (start - stop).toNat).map fun k : Nat => start - (k : Int)

/-- Full-row test of the line-clear scan (code.py lines 1205-1209): every
column 0..GRID_WIDTH-1 of row y is nonzero. -/
def rowFull (g : Grid) (y : Int) : Bool :=
  (intRange 0 GRID_WIDTH).all fun x => g x y != 0

/-- One step of the shift loop (code.py lines 1213-1215): row i receives
row i - 1, columns 0..GRID_WIDTH-1. -/
def shiftRow (g : Grid) (i : Int) : Grid :=
  fun a b => if b = i ∧ 0 ≤ a ∧ a < GRID_WIDTH then g a (i - 1) else g a b

/-- Clearing of top line (code.py lines 1217-1219): zero row 0. -/
def zeroTopRow (g : Grid) : Grid :=
  fun a b => if b = 0 ∧ 0 ≤ a ∧ a < GRID_WIDTH then 0 else g a b

/-- Per-row clearing body (code.py lines 1212-1219): for i in
range(y, 1, -1) shift row i - 1 into row i (the descending order makes
each row receive the original content of the row above), then zero
row 0.  Note the loop stops at i = 2: row 1 is never assigned. -/
def clearRowAt (g : Grid) (y : Int) : Grid :=
  zeroTopRow ((rangeDown y 1).foldl shiftRow g)

/-- The line-clear scan over a list of row indices, threading the grid and
the running line count (code.py lines 1203-1219, scanned in ascending
order on the current grid). -/
def scanRows (g : Grid) (lines : Nat) : List Int → Grid × Nat
  | [] => (g, lines)
  | y :: rest =>
    if rowFull g y then scanRows (clearRowAt g y) (lines + 1) rest
    else scanRows g lines rest

/-- Line clearing after a lock (code.py lines 1202-1219): scan the rows
range(max(tile_y, 0), min(tile_y + TETROMINO_SIZE, GRID_HEIGHT)). -/
def clear_lines (H : Int) (g : Grid) (ty : Int) : Grid × Nat :=
  scanRows g 0 (intRange (max ty 0) (min (ty + (TETROMINO_SIZE : Int)) H))

/-- The game phase constants STATE_WAITING .. STATE_GAME_OVER
(code.py lines 1082-1085). -/
inductive GState
  | waiting
  | playing
  | paused
  | gameOver
deriving Repr, DecidableEq

/-- Outcome of one lock event inside tetromino_handler. -/
structure LockResult where
  grid : Grid
  lines : Nat
  phase : GState
  spawned : Bool

/-- The lock branch of tetromino_handler (code.py lines 1197-1232): place
the piece, run the line-clear scan, then transition to game over when
tetromino.tile_y <= 0 and no lines were cleared; otherwise the phase
remains playing and a new tetromino is generated (get_next_tetromino runs
only while game_state is still STATE_PLAYING). -/
def lock_step (H : Int) (g : Grid) (p : Piece) : LockResult :=
  let g1 := place H g p
  let r := clear_lines H g1 p.tile_y
  if p.tile_y ≤ 0 ∧ r.2 = 0 then
    { grid := r.1, lines := r.2, phase := GState.gameOver, spawned := false }
  else
    { grid := r.1, lines := r.2, phase := GState.playing, spawned := true }

/-- Scoring and leveling state: score_window.score, level_window.value,
and the running current_lines counter. -/
structure ScoreState where
  score : Nat
  level : Nat
  currentLines : Nat
deriving Repr, DecidableEq

/-- get_lines_per_level (code.py lines 1151-1153): level * 10. -/
def get_lines_per_level (s : ScoreState) : Nat :=
  s.level * 10

/-- add_lines (code.py lines 1171-1182): when lines is nonzero, add
(40, 100, 300, 1200)[lines - 1] * level to the score, accumulate
current_lines, and when current_lines strictly exceeds level * 10,
increment the level and reset current_lines to 0. -/
def add_lines (s : ScoreState) (lines : Nat) : ScoreState :=
  if lines = 0 then s
  else
    let score1 := s.score + [40, 100, 300, 1200].getD (lines - 1) 0 * s.level
    let cl := s.currentLines + lines
    if get_lines_per_level s < cl then
      { score := score1, level := s.level + 1, currentLines := 0 }
    else
      { score := score1, level := s.level, currentLines := cl }

/-- The ACTION_HARD_DROP loop body of do_action (code.py lines 1294-1301):
repeat tetromino.down() counting the successful cells; fuel bounds the
number of loop iterations (any fuel at least the drop distance gives the
terminal behavior).  Returns the count of cells moved and the piece. -/
def hard_drop_aux (H : Int) (g : Grid) : Nat → Piece → Nat × Piece
  | 0, p => (0, p)
  | n + 1, p =>
    match move H g p 0 1 with
    | some (true, q) =>
      let r := hard_drop_aux H g n q
      (r.1 + 1, r.2)
    | _ => (0, p)

/-- ACTION_HARD_DROP: score_window.score += spaces after the drop loop. -/
def hard_drop (H : Int) (g : Grid) (fuel : Nat) (p : Piece) (sc : Nat) :
    Nat × Piece :=
  let r := hard_drop_aux H g fuel p
  (sc + r.1, r.2)

/-- The initial high score the score window is constructed with
(code.py line 959: ScoreWindow(high_score=10000, ...)). -/
def score_window_initial_high : Int := 10000

/-- State of /saves/fruitris.txt, abstracted to the result of Python's
int() on its first line: none models a missing or unreadable file
(OSError), some none a first line that is not an integer (ValueError on
int()), and some (some v) a first line parsing to v. -/
abbrev SaveFile := Option (Option Int)

/-- ScoreWindow._read_save (code.py lines 700-710): on OSError keep
everything; on ValueError delete the file; otherwise adopt the saved
score only when it strictly exceeds the current high score.  Returns the
resulting high score and the resulting file state. -/
def read_save (file : SaveFile) (high : Int) : Int × SaveFile :=
  match file with
  | none => (high, none)
  | some none => (high, none)
  | some (some v) => (if high < v then v else high, some (some v))

/-- ScoreWindow._update_save (code.py lines 712-717): write str(high) as
the file's content; int() parses it back to high. -/
def update_save (high : Int) : SaveFile :=
  some (some high)

/-- The O pattern (shape index 3): the only shape whose topmost occupied
row is not row 0, hence the only shape spawned with tile_y = -1. -/
def patternO : List (List Nat) :=
  [[0, 0, 0, 0],
   [0, 1, 1, 0],
   [0, 1, 1, 0],
   [0, 0, 0, 0]]

/-- Invariant of every piece the game manipulates: either the 4x4 box does
not extend above the grid, or it extends by exactly one row and the
pattern is the O pattern, whose occupied cells sit in box rows 1 and 2. -/
def GoodPiece (p : Piece) : Prop :=
  0 ≤ p.tile_y ∨ (p.tile_y = -1 ∧ p.pattern = patternO)

/-- Overapproximation of the piece states reachable during play: a spawn
of any of the 7 shapes, followed by any number of horizontal moves,
downward moves, and rotations with an arbitrary wall-kick shift (the game
itself only moves when check_collide permits, only kicks by -1 or +1, and
also builds its shadow-indicator pieces this way, so every piece state
the game ever passes to check_collide, place or the line-clear scan is
covered). -/
inductive Reach : Piece → Prop
  | spawn (k : Fin 7) : Reach (spawnPiece k.val)
  | left {p : Piece} : Reach p → Reach { p with tile_x := p.tile_x - 1 }
  | right {p : Piece} : Reach p → Reach { p with tile_x := p.tile_x + 1 }
  | down {p : Piece} : Reach p → Reach { p with tile_y := p.tile_y + 1 }
  | rotR {p : Piece} (d : Int) : Reach p →
      Reach { p with pattern := rotate_right_pattern p.pattern,
                     tile_x := p.tile_x + d, rot := (p.rot + 1) % 4 }
  | rotL {p : Piece} (d : Int) : Reach p →
      Reach { p with pattern := rotate_left_pattern p.pattern,
                     tile_x := p.tile_x + d, rot := (p.rot + 3) % 4 }

/-! Concrete grids and pieces used in counterexamples and witnesses. -/

/-- An empty grid. -/
def emptyGrid : Grid := fun _ _ => 0

/-- A grid whose row 1 is entirely occupied and every other row empty. -/
def gRow1Full : Grid := fun _ b => if b = 1 then 1 else 0

/-- The O piece (shape index 3) with its 4x4 box at (3, 0): its occupied
cells are at absolute rows 1 and 2, columns 4 and 5. -/
def pO : Piece :=
  { pattern := (TETROMINOS.getD 3 ⟨0, []⟩).pattern, tile := 6,
    tile_x := 3, tile_y := 0, rot := 0 }

/-- A grid with blockers at (4, 3) and (5, 3), directly under pO. -/
def gUnderO : Grid := fun a b => if (a = 4 ∨ a = 5) ∧ b = 3 then 1 else 0

/-- The I piece (shape index 0) with its box at (3, -2), so that its
topmost occupied cells sit above the grid. -/
def pAbove : Piece :=
  { pattern := (TETROMINOS.getD 0 ⟨0, []⟩).pattern, tile := 3,
    tile_x := 3, tile_y := -2, rot := 0 }

/-- The vertical I piece at the left wall, at (0, 5). -/
def pWall : Piece :=
  { pattern := (TETROMINOS.getD 0 ⟨0, []⟩).pattern, tile := 3,
    tile_x := 0, tile_y := 5, rot := 0 }

/-- A grid with row 6 occupied in columns 0..4: the right-rotated I of
pWall (occupying absolute row 6) collides there at x, x - 1 and x + 1. -/
def gKickBlock : Grid := fun a b => if b = 6 ∧ 0 ≤ a ∧ a ≤ 4 then 1 else 0

/-- The vertical I piece at (8, 5): its occupied column is absolute
column 10, outside the grid. -/
def pRightOut : Piece :=
  { pattern := (TETROMINOS.getD 0 ⟨0, []⟩).pattern, tile := 3,
    tile_x := 8, tile_y := 5, rot := 0 }

/-! Claim theorems. -/

/-- Claim C1 (code-bug evidence): on a grid whose row 1 is completely
full, the lock-time clear scan starting at tile_y = 0 counts one cleared
line, yet leaves row 1 fully occupied: the shift loop range(y, 1, -1)
stops at i = 2, so row 1 is never overwritten and the counted row is not
removed, while the claim (and the source comment "move tiles down
(clears current line)") require the cleared row to disappear and the rows
above to shift into it. -/
theorem clear_lines_row1_not_removed :
    (clear_lines 26 gRow1Full 0).2 = 1 ∧ (clear_lines 26 gRow1Full 0).1 3 1 = 1 :=
  ⟨rfl, rfl⟩

/-- Claim C5 (amended): the right rotation computes
new[y][x] = old[x][3 - y], the left rotation computes
new[y][x] = old[3 - x][y], and composing left after right restores every
cell of the 4x4 pattern. -/
theorem rotation_patterns (patt : List (List Nat)) (y x : Fin 4) :
    pattGet (rotate_right_pattern patt) y.val x.val = pattGet patt x.val (3 - y.val)
    ∧ pattGet (rotate_left_pattern patt) y.val x.val = pattGet patt (3 - x.val) y.val
    ∧ pattGet (rotate_left_pattern (rotate_right_pattern patt)) y.val x.val
        = pattGet patt y.val x.val := by
  fin_cases y <;> fin_cases x <;> exact ⟨rfl, rfl, rfl⟩

/-- Claim C5 (counterexample): for shape 1 the right-rotated pattern has
new[1][0] = 1 while the claimed formula old[3 - x][y] gives
old[3][1] = 0, so the claimed identity new[y][x] = old[3 - x][y] fails at
y = 1, x = 0. -/
theorem rotate_right_formula_cex :
    pattGet (rotate_right_pattern (TETROMINOS.getD 1 ⟨0, []⟩).pattern) 1 0 = 1
    ∧ pattGet (TETROMINOS.getD 1 ⟨0, []⟩).pattern 3 1 = 0 :=
  ⟨rfl, rfl⟩

/-- Claim C10: every spawned piece has its 4x4 box at
tile_x = (GRID_WIDTH - TETROMINO_SIZE) // 2, some occupied cell exactly on
grid row 0, and no occupied cell above row 0, for each of the 7 shapes in
base orientation. -/
theorem spawn_position_spec (k : Fin 7) :
    (spawnPiece k.val).tile_x = (GRID_WIDTH - (TETROMINO_SIZE : Int)) / 2
    ∧ (∃ i j : Fin 4, pattGet (spawnPiece k.val).pattern i.val j.val ≠ 0
        ∧ (i.val : Int) + (spawnPiece k.val).tile_y = 0)
    ∧ (∀ i j : Fin 4, pattGet (spawnPiece k.val).pattern i.val j.val ≠ 0 →
        0 ≤ (i.val : Int) + (spawnPiece k.val).tile_y) := by
  revert k; decide

/-- Claim C6 (counterexample): the O piece locked with its box at
tile_y = 0 (a genuine lock event: moving down one collides) has its
topmost occupied cells on absolute row 1, strictly below grid row 0, and
clears zero lines, yet the code transitions to GameOver because the test
is tile_y <= 0, not the topmost occupied row. -/
theorem lock_step_topmost_row_cex :
    check_collide 26 gUnderO pO pO.pattern 0 1 = some true
    ∧ (∀ i j : Fin 4, pattGet pO.pattern i.val j.val ≠ 0 →
        1 ≤ (i.val : Int) + pO.tile_y)
    ∧ (lock_step 26 gUnderO pO).lines = 0
    ∧ (lock_step 26 gUnderO pO).phase = GState.gameOver :=
  ⟨rfl, by decide, rfl, rfl⟩

/-- Claim C6 (amended): a lock event transitions the phase to GameOver
exactly when zero lines are cleared and the locked piece's 4x4 box top
(tile_y) is at or above grid row 0; otherwise the phase stays Playing and
a new active piece is generated. -/
theorem lock_step_phase_spec (H : Int) (g : Grid) (p : Piece) :
    ((lock_step H g p).phase = GState.gameOver
      ↔ p.tile_y ≤ 0 ∧ (lock_step H g p).lines = 0)
    ∧ ((lock_step H g p).phase = GState.playing
      ↔ ¬(p.tile_y ≤ 0 ∧ (lock_step H g p).lines = 0))
    ∧ ((lock_step H g p).spawned = true ↔ (lock_step H g p).phase = GState.playing)
    ∧ (lock_step H g p).lines = (clear_lines H (place H g p) p.tile_y).2 := by
  unfold lock_step
  by_cases h : p.tile_y ≤ 0 ∧ (clear_lines H (place H g p) p.tile_y).2 = 0 <;>
    simp [h]

/-- Claim C2 (counterexample): for the I piece positioned partly above the
grid (box at (3, -2)) on an empty grid, check_collide does not return: the
first occupied cell passes the horizontal and bottom checks and the code
then reads the grid at y = -2, which raises IndexError (modelled as none).
The claim's predicate — including its "(when y >= 0)" guard — is false at
every occupied cell, so the claim would demand a returned false. -/
theorem check_collide_crashes_below_grid :
    check_collide 26 emptyGrid pAbove pAbove.pattern 0 0 = none
    ∧ (∀ i j : Fin 4, pattGet pAbove.pattern i.val j.val ≠ 0 →
        ¬((j.val : Int) + pAbove.tile_x < 0
          ∨ GRID_WIDTH ≤ (j.val : Int) + pAbove.tile_x
          ∨ (26 : Int) ≤ (i.val : Int) + pAbove.tile_y
          ∨ (0 ≤ (i.val : Int) + pAbove.tile_y
             ∧ emptyGrid ((j.val : Int) + pAbove.tile_x)
                 ((i.val : Int) + pAbove.tile_y) ≠ 0))) :=
  ⟨rfl, by decide⟩

/-- A successful downward move increments tile_y by exactly one. -/
theorem move_down_tile_y (H : Int) (g : Grid) (p q : Piece)
    (h : move H g p 0 1 = some (true, q)) : q.tile_y = p.tile_y + 1 := by
  unfold move at h
  rcases hc : check_collide H g p p.pattern 0 1 with _ | b
  · rw [hc] at h; exact absurd h (by simp)
  · rw [hc] at h
    cases b
    · simp only [Option.some.injEq, Prod.mk.injEq] at h
      rw [← h.2]
    · simp at h

/-- The hard-drop loop moves the piece down by exactly the number of
successful down moves it counts. -/
theorem hard_drop_aux_tile_y (H : Int) (g : Grid) :
    ∀ (n : Nat) (p : Piece),
      (hard_drop_aux H g n p).2.tile_y
        = p.tile_y + ((hard_drop_aux H g n p).1 : Int)
  | 0, _ => by simp [hard_drop_aux]
  | n + 1, p => by
    unfold hard_drop_aux
    rcases hm : move H g p 0 1 with _ | ⟨b, q⟩
    · simp
    · cases b
      · simp
      · have hq := move_down_tile_y H g p q hm
        have ih := hard_drop_aux_tile_y H g n q
        simp only [ih, hq]
        push_cast
        ring

/-- Claim C7: a lock event clearing lines in 1..4 rows at level L adds
exactly points_table[lines - 1] * L with points_table = [40, 100, 300,
1200]; a hard drop adds exactly its fall distance to the score (the score
increment equals the count of successful down moves, which equals the
piece's tile_y displacement). -/
theorem scoring_spec (s : ScoreState) (lines : Nat) (H : Int) (g : Grid)
    (fuel : Nat) (p : Piece) (sc : Nat) (h1 : 1 ≤ lines) (h4 : lines ≤ 4) :
    (add_lines s lines).score = s.score +
      (if lines = 1 then 40 else if lines = 2 then 100
       else if lines = 3 then 300 else 1200) * s.level
    ∧ (hard_drop H g fuel p sc).1 = sc + (hard_drop_aux H g fuel p).1
    ∧ ((hard_drop H g fuel p sc).2).tile_y
        = p.tile_y + ((hard_drop_aux H g fuel p).1 : Int) := by
  refine ⟨?_, rfl, hard_drop_aux_tile_y H g fuel p⟩
  have key : ∀ t : Nat, t ≠ 0 →
      (add_lines s t).score
        = s.score + [40, 100, 300, 1200].getD (t - 1) 0 * s.level := by
    intro t ht
    unfold add_lines
    rw [if_neg ht]
    by_cases h : get_lines_per_level s < s.currentLines + t <;> simp [h]
  interval_cases lines <;> exact key _ (by decide)

/-- Claim C7 (witness): a 4-line clear at level 2 adds 1200 * 2, and a
hard drop of the I piece from spawn on an empty grid adds its fall
distance. -/
theorem scoring_spec_witness :
    (1 ≤ 4 ∧ 4 ≤ 4)
    ∧ ((add_lines ⟨100, 2, 5⟩ 4).score = 100 +
        (if 4 = 1 then 40 else if 4 = 2 then 100
         else if 4 = 3 then 300 else 1200) * 2
      ∧ (hard_drop 26 emptyGrid 40 (spawnPiece 0) 0).1
          = 0 + (hard_drop_aux 26 emptyGrid 40 (spawnPiece 0)).1
      ∧ ((hard_drop 26 emptyGrid 40 (spawnPiece 0) 0).2).tile_y
          = (spawnPiece 0).tile_y
            + ((hard_drop_aux 26 emptyGrid 40 (spawnPiece 0)).1 : Int)) :=
  ⟨by decide,
   scoring_spec ⟨100, 2, 5⟩ 4 26 emptyGrid 40 (spawnPiece 0) 0 (by decide) (by decide)⟩

/-- Claim C8: the level increments exactly when the running total of lines
since the last level-up strictly exceeds level * 10, and at that moment
the counter resets to 0 (not to the remainder); otherwise the counter
keeps accumulating and the level is unchanged. -/
theorem level_progression_spec (s : ScoreState) (lines : Nat) (h1 : 1 ≤ lines) :
    ((add_lines s lines).level = s.level + 1
      ↔ s.level * 10 < s.currentLines + lines)
    ∧ (s.level * 10 < s.currentLines + lines →
        (add_lines s lines).currentLines = 0)
    ∧ (s.currentLines + lines ≤ s.level * 10 →
        (add_lines s lines).level = s.level
        ∧ (add_lines s lines).currentLines = s.currentLines + lines) := by
  have hne : lines ≠ 0 := by omega
  unfold add_lines get_lines_per_level
  by_cases h : s.level * 10 < s.currentLines + lines <;> simp [hne, h]

/-- Claim C8 (witness): at level 1 with 7 lines accumulated, clearing 4
lines exceeds the threshold 10, increments the level and resets the
counter to 0. -/
theorem level_progression_spec_witness :
    1 ≤ 4
    ∧ (((add_lines ⟨0, 1, 7⟩ 4).level = 1 + 1 ↔ 1 * 10 < 7 + 4)
      ∧ (1 * 10 < 7 + 4 → (add_lines ⟨0, 1, 7⟩ 4).currentLines = 0)
      ∧ (7 + 4 ≤ 1 * 10 →
          (add_lines ⟨0, 1, 7⟩ 4).level = 1
          ∧ (add_lines ⟨0, 1, 7⟩ 4).currentLines = 7 + 4)) :=
  ⟨by decide, level_progression_spec ⟨0, 1, 7⟩ 4 (by decide)⟩

/-- Claim C9 (amended): reloading after writing v yields the maximum of v
and the window's current high score, so v is recovered exactly when it is
at least the current high score (10000 at startup); a file whose first
line is not an integer is deleted and leaves the high score unchanged; a
missing or unreadable file changes nothing. -/
theorem high_score_save_spec (v h : Int) :
    (h ≤ v → (read_save (update_save v) h).1 = v)
    ∧ (v < h → (read_save (update_save v) h).1 = h)
    ∧ read_save (some none) h = (h, none)
    ∧ read_save none h = (h, none) := by
  refine ⟨?_, ?_, rfl, rfl⟩ <;>
    · intro hvh
      simp only [read_save, update_save]
      split_ifs <;> omega

/-- Claim C9 (witness): writing 20000 over a current high of 10000 round
trips; writing 3 does not (the reload keeps 10000). -/
theorem high_score_save_spec_witness :
    ((10000 : Int) ≤ 20000 ∧ (read_save (update_save 20000) 10000).1 = 20000)
    ∧ ((3 : Int) < 10000 ∧ (read_save (update_save 3) 10000).1 = 10000) :=
  ⟨⟨by decide, (high_score_save_spec 20000 10000).1 (by decide)⟩,
   ⟨by decide, ((high_score_save_spec 3 10000).2).1 (by decide)⟩⟩

/-- Claim C9 (counterexample): with the in-code initial high score 10000,
writing 5 to the save file and reloading yields 10000, not 5; and loading
a non-integer file yields the unchanged high score 10000 (not 0), though
the file is indeed deleted. -/
theorem high_score_roundtrip_cex :
    (read_save (update_save 5) score_window_initial_high).1 = 10000
    ∧ (5 : Int) ≠ 10000
    ∧ (read_save (some none) score_window_initial_high).1 = 10000
    ∧ (read_save (some none) score_window_initial_high).2 = none := by
  decide

/-- The 16 loop indices are exactly the pairs below (4, 4). -/
theorem mem_cellList (c : Nat × Nat) : c ∈ cellList ↔ c.1 < 4 ∧ c.2 < 4 := by
  obtain ⟨i, j⟩ := c
  constructor
  · intro h
    fin_cases h <;> simp
  · rintro ⟨h1, h2⟩
    interval_cases i <;> interval_cases j <;> simp [cellList]

/-- Characterization of the check_collide scan: when every occupied cell
of the scanned indices has nonnegative absolute row, the scan returns a
value, and that value is true exactly when some occupied cell violates
the horizontal bounds, the bottom bound, or lands on an occupied grid
cell. -/
theorem checkCollideAux_some (H : Int) (g : Grid) (patt : List (List Nat))
    (px py : Int) :
    ∀ L : List (Nat × Nat),
      (∀ c ∈ L, pattGet patt c.1 c.2 ≠ 0 → 0 ≤ (c.1 : Int) + py) →
      ∃ b, checkCollideAux H g patt px py L = some b
        ∧ (b = true ↔ ∃ c ∈ L, pattGet patt c.1 c.2 ≠ 0
            ∧ ((c.2 : Int) + px < 0 ∨ GRID_WIDTH ≤ (c.2 : Int) + px
               ∨ H ≤ (c.1 : Int) + py
               ∨ g ((c.2 : Int) + px) ((c.1 : Int) + py) ≠ 0))
  | [], _ => ⟨false, rfl, by simp⟩
  | c :: rest, hL => by
    have hhead := hL c (by simp)
    have htail : ∀ d ∈ rest, pattGet patt d.1 d.2 ≠ 0 → 0 ≤ (d.1 : Int) + py :=
      fun d hd => hL d (by simp [hd])
    obtain ⟨b, hb, hiff⟩ := checkCollideAux_some H g patt px py rest htail
    by_cases hocc : pattGet patt c.1 c.2 ≠ 0
    · by_cases hx : (c.2 : Int) + px < 0 ∨ GRID_WIDTH ≤ (c.2 : Int) + px
      · refine ⟨true, by simp [checkCollideAux, hocc, hx], ?_⟩
        simp only [true_iff]
        exact ⟨c, by simp, hocc, hx.elim Or.inl (fun h2 => Or.inr (Or.inl h2))⟩
      · by_cases hB : H ≤ (c.1 : Int) + py
        · refine ⟨true, by simp [checkCollideAux, hocc, hx, hB], ?_⟩
          simp only [true_iff]
          exact ⟨c, by simp, hocc, Or.inr (Or.inr (Or.inl hB))⟩
        · have hC : ¬((c.1 : Int) + py < 0) := by
            have := hhead hocc; omega
          by_cases hD : g ((c.2 : Int) + px) ((c.1 : Int) + py) ≠ 0
          · refine ⟨true, by simp [checkCollideAux, hocc, hx, hB, hC, hD], ?_⟩
            simp only [true_iff]
            exact ⟨c, by simp, hocc, Or.inr (Or.inr (Or.inr hD))⟩
          · refine ⟨b, by simp [checkCollideAux, hocc, hx, hB, hC, hD, hb], ?_⟩
            rw [hiff]
            constructor
            · rintro ⟨d, hd, hdocc, hdbad⟩
              exact ⟨d, by simp [hd], hdocc, hdbad⟩
            · rintro ⟨d, hd, hdocc, hdbad⟩
              rcases (List.mem_cons.mp hd) with hdc | hdr
              · subst hdc
                rcases hdbad with h1 | h2 | h3 | h4
                · exact absurd (Or.inl h1) hx
                · exact absurd (Or.inr h2) hx
                · exact absurd h3 hB
                · exact absurd h4 hD
              · exact ⟨d, hdr, hdocc, hdbad⟩
    · refine ⟨b, by simp [checkCollideAux, hocc, hb], ?_⟩
      rw [hiff]
      constructor
      · rintro ⟨d, hd, hdocc, hdbad⟩
        exact ⟨d, by simp [hd], hdocc, hdbad⟩
      · rintro ⟨d, hd, hdocc, hdbad⟩
        rcases (List.mem_cons.mp hd) with hdc | hdr
        · subst hdc; exact absurd hdocc hocc
        · exact ⟨d, hdr, hdocc, hdbad⟩

/-- Claim C2 (amended): provided every occupied cell of the tested pattern
has nonnegative absolute row (which holds for every reachable piece),
check_collide returns, and returns true if and only if some occupied cell
of the 4x4 pattern maps to an absolute cell with x < 0, x >= GRID_WIDTH,
y >= grid height, or onto an already-occupied grid cell.  (Without that
proviso the code does consult the grid at y < 0 and raises IndexError;
see the counterexample.) -/
theorem check_collide_iff_of_nonneg (H : Int) (g : Grid) (p : Piece)
    (patt : List (List Nat)) (dx dy : Int)
    (hsafe : ∀ i j : Fin 4, pattGet patt i.val j.val ≠ 0 →
      0 ≤ (i.val : Int) + (p.tile_y + dy)) :
    ∃ b, check_collide H g p patt dx dy = some b
      ∧ (b = true ↔ ∃ i j : Fin 4, pattGet patt i.val j.val ≠ 0
          ∧ ((j.val : Int) + (p.tile_x + dx) < 0
             ∨ GRID_WIDTH ≤ (j.val : Int) + (p.tile_x + dx)
             ∨ H ≤ (i.val : Int) + (p.tile_y + dy)
             ∨ g ((j.val : Int) + (p.tile_x + dx))
                 ((i.val : Int) + (p.tile_y + dy)) ≠ 0)) := by
  have hs : ∀ c ∈ cellList, pattGet patt c.1 c.2 ≠ 0 →
      0 ≤ (c.1 : Int) + (p.tile_y + dy) := by
    intro c hc hocc
    obtain ⟨h1, h2⟩ := (mem_cellList c).mp hc
    exact hsafe ⟨c.1, h1⟩ ⟨c.2, h2⟩ hocc
  obtain ⟨b, hb, hiff⟩ :=
    checkCollideAux_some H g patt (p.tile_x + dx) (p.tile_y + dy) cellList hs
  refine ⟨b, hb, hiff.trans ?_⟩
  constructor
  · rintro ⟨c, hc, hocc, hbad⟩
    obtain ⟨h1, h2⟩ := (mem_cellList c).mp hc
    exact ⟨⟨c.1, h1⟩, ⟨c.2, h2⟩, hocc, hbad⟩
  · rintro ⟨i, j, hocc, hbad⟩
    exact ⟨(i.val, j.val), (mem_cellList _).mpr ⟨i.isLt, j.isLt⟩, hocc, hbad⟩

/-- Claim C2 (witness): the vertical I piece at tile_x = 8 maps its
occupied column to absolute column 10, outside the grid, and the
predicate returns a value satisfying the characterization. -/
theorem check_collide_iff_witness :
    (∀ i j : Fin 4, pattGet pRightOut.pattern i.val j.val ≠ 0 →
      0 ≤ (i.val : Int) + (pRightOut.tile_y + 0))
    ∧ (∃ b, check_collide 26 emptyGrid pRightOut pRightOut.pattern 0 0 = some b
        ∧ (b = true ↔ ∃ i j : Fin 4, pattGet pRightOut.pattern i.val j.val ≠ 0
            ∧ ((j.val : Int) + (pRightOut.tile_x + 0) < 0
               ∨ GRID_WIDTH ≤ (j.val : Int) + (pRightOut.tile_x + 0)
               ∨ (26 : Int) ≤ (i.val : Int) + (pRightOut.tile_y + 0)
               ∨ emptyGrid ((j.val : Int) + (pRightOut.tile_x + 0))
                   ((i.val : Int) + (pRightOut.tile_y + 0)) ≠ 0))) :=
  ⟨by decide,
   check_collide_iff_of_nonneg 26 emptyGrid pRightOut pRightOut.pattern 0 0 (by decide)⟩

/-- Claim C4: a rotation attempt tries the rotated pattern at the current
x, then at x - 1, then at x + 1, in that priority order (each later
position is used only when every earlier one collides); when all three
positions collide the rotation returns failure and the piece — position,
pattern and rotation counter — is exactly as it was. -/
theorem rotation_wallkick_order (H : Int) (g : Grid) (p : Piece) :
    (check_collide H g p (rotate_right_pattern p.pattern) 0 0 = some false →
      rotate_right H g p false
        = some (true, { p with pattern := rotate_right_pattern p.pattern,
                               rot := (p.rot + 1) % 4 }))
    ∧ (check_collide H g p (rotate_right_pattern p.pattern) 0 0 = some true →
       check_collide H g p (rotate_right_pattern p.pattern) (-1) 0 = some false →
      rotate_right H g p false
        = some (true, { p with tile_x := p.tile_x - 1,
                               pattern := rotate_right_pattern p.pattern,
                               rot := (p.rot + 1) % 4 }))
    ∧ (check_collide H g p (rotate_right_pattern p.pattern) 0 0 = some true →
       check_collide H g p (rotate_right_pattern p.pattern) (-1) 0 = some true →
       check_collide H g p (rotate_right_pattern p.pattern) 1 0 = some false →
      rotate_right H g p false
        = some (true, { p with tile_x := p.tile_x + 1,
                               pattern := rotate_right_pattern p.pattern,
                               rot := (p.rot + 1) % 4 }))
    ∧ (check_collide H g p (rotate_right_pattern p.pattern) 0 0 = some true →
       check_collide H g p (rotate_right_pattern p.pattern) (-1) 0 = some true →
       check_collide H g p (rotate_right_pattern p.pattern) 1 0 = some true →
      rotate_right H g p false = some (false, p)) := by
  refine ⟨?_, ?_, ?_, ?_⟩
  · intro h0
    simp [rotate_right, wiggle, h0]
  · intro h0 h1
    simp [rotate_right, wiggle, h0, h1]
  · intro h0 h1 h2
    simp [rotate_right, wiggle, h0, h1, h2]
  · intro h0 h1 h2
    simp [rotate_right, wiggle, h0, h1, h2]

/-- Claim C4 (witness): the vertical I piece at the left wall over a
blocked row collides at all three kick positions, and the rotation fails
leaving the piece exactly unchanged. -/
theorem rotation_wallkick_order_witness :
    (check_collide 26 gKickBlock pWall (rotate_right_pattern pWall.pattern) 0 0 = some true
     ∧ check_collide 26 gKickBlock pWall (rotate_right_pattern pWall.pattern) (-1) 0 = some true
     ∧ check_collide 26 gKickBlock pWall (rotate_right_pattern pWall.pattern) 1 0 = some true)
    ∧ rotate_right 26 gKickBlock pWall false = some (false, pWall) :=
  ⟨⟨rfl, rfl, rfl⟩,
   ((rotation_wallkick_order 26 gKickBlock pWall).2.2.2) rfl rfl rfl⟩

instance (p : Piece) : Decidable (GoodPiece p) := by
  unfold GoodPiece
  infer_instance

/-- Every reachable piece satisfies the invariant: its box top is at or
below row 0, except the O piece at its spawn height -1, whose pattern (in
every rotation) occupies only box rows 1 and 2. -/
theorem reach_good {p : Piece} (h : Reach p) : GoodPiece p := by
  induction h with
  | spawn k => exact (by decide : ∀ k : Fin 7, GoodPiece (spawnPiece k.val)) k
  | left _ ih => exact ih
  | right _ ih => exact ih
  | down _ ih =>
    rcases ih with h0 | ⟨h1, _⟩
    · left
      show (0 : Int) ≤ _ + 1
      omega
    · left
      show (0 : Int) ≤ _ + 1
      omega
  | rotR d _ ih =>
    rcases ih with h0 | ⟨h1, h2⟩
    · exact Or.inl h0
    · exact Or.inr ⟨h1, by show rotate_right_pattern _ = _; rw [h2]; decide⟩
  | rotL d _ ih =>
    rcases ih with h0 | ⟨h1, h2⟩
    · exact Or.inl h0
    · exact Or.inr ⟨h1, by show rotate_left_pattern _ = _; rw [h2]; decide⟩

/-- For a piece satisfying the invariant, every occupied cell of its own
pattern or of either rotated candidate has nonnegative absolute row under
any downward offset. -/
theorem good_cells {p : Piece} (hp : GoodPiece p) {patt : List (List Nat)}
    (hpatt : patt = p.pattern ∨ patt = rotate_right_pattern p.pattern
             ∨ patt = rotate_left_pattern p.pattern)
    (dy : Int) (hdy : 0 ≤ dy) :
    ∀ c ∈ cellList, pattGet patt c.1 c.2 ≠ 0 → 0 ≤ (c.1 : Int) + (p.tile_y + dy) := by
  intro c hc hocc
  rcases hp with h0 | ⟨h1, h2⟩
  · have hcc : (0 : Int) ≤ (c.1 : Int) := Int.ofNat_nonneg c.1
    omega
  · have hO : patt = patternO := by
      rcases hpatt with h | h | h
      · rw [h, h2]
      · rw [h, h2]; decide
      · rw [h, h2]; decide
    rw [hO] at hocc
    have hrow : 1 ≤ c.1 :=
      (by decide : ∀ c ∈ cellList, pattGet patternO c.1 c.2 ≠ 0 → 1 ≤ c.1) c hc hocc
    have hcc : (1 : Int) ≤ (c.1 : Int) := by exact_mod_cast hrow
    omega

/-- The placement fold changes only cells that pass its in-bounds guard. -/
theorem place_foldl_bounds (H : Int) (p : Piece) :
    ∀ (L : List (Nat × Nat)) (g0 : Grid) (a b : Int),
      (L.foldl (placeCell H p) g0) a b ≠ g0 a b →
      0 ≤ a ∧ a < GRID_WIDTH ∧ 0 ≤ b ∧ b < H
  | [], g0, a, b => fun h => absurd rfl h
  | c :: L, g0, a, b => by
    intro h
    rw [List.foldl_cons] at h
    by_cases h1 : (L.foldl (placeCell H p) (placeCell H p g0 c)) a b
        = (placeCell H p g0 c) a b
    · rw [h1] at h
      simp only [placeCell] at h
      split_ifs at h with hcond
      · have h2 : (if a = (c.2 : Int) + p.tile_x ∧ b = (c.1 : Int) + p.tile_y
            then p.tile else g0 a b) ≠ g0 a b := h
        by_cases he : a = (c.2 : Int) + p.tile_x ∧ b = (c.1 : Int) + p.tile_y
        · obtain ⟨ha, hb'⟩ := he
          subst ha; subst hb'
          exact ⟨hcond.2.1, hcond.2.2.1, hcond.2.2.2.1, hcond.2.2.2.2⟩
        · rw [if_neg he] at h2
          exact absurd rfl h2
      · exact absurd rfl h
    · exact place_foldl_bounds H p L (placeCell H p g0 c) a b h1

/-- Members of the ascending scan range lie between its bounds. -/
theorem intRange_bounds {lo hi y : Int} (h : y ∈ intRange lo hi) :
    lo ≤ y ∧ y < hi := by
  unfold intRange at h
  rw [List.mem_map] at h
  obtain ⟨k, hk, rfl⟩ := h
  rw [List.mem_range] at hk
  omega

/-- Members of the descending shift range range(y, 1, -1) lie in [2, y]. -/
theorem rangeDown_bounds {y i : Int} (h : i ∈ rangeDown y 1) :
    2 ≤ i ∧ i ≤ y := by
  unfold rangeDown at h
  rw [List.mem_map] at h
  obtain ⟨k, hk, rfl⟩ := h
  rw [List.mem_range] at hk
  omega

/-- Claim C3: for every reachable piece (including those whose box extends
above the grid) no grid cell outside [0, GRID_WIDTH) x [0, H) is ever
indexed: the collision test (for the piece's own pattern or either rotated
candidate, any horizontal offset, any downward offset) never performs an
out-of-bounds grid access; placement changes in-bounds cells only (its
writes are explicitly guarded); the line-clear scan visits only row
indices y with 0 <= y < H; and for such a row the shift loop touches only
rows i and i - 1 with 0 <= i - 1 and i < H (columns are always scanned
over 0..GRID_WIDTH-1). -/
theorem no_out_of_bounds_indexing (H : Int) (g : Grid) (p : Piece)
    (patt : List (List Nat)) (dx dy : Int) (hre : Reach p) (hdy : 0 ≤ dy)
    (hpatt : patt = p.pattern ∨ patt = rotate_right_pattern p.pattern
             ∨ patt = rotate_left_pattern p.pattern) :
    (check_collide H g p patt dx dy).isSome = true
    ∧ (∀ a b : Int, place H g p a b ≠ g a b →
        0 ≤ a ∧ a < GRID_WIDTH ∧ 0 ≤ b ∧ b < H)
    ∧ (∀ y : Int,
        y ∈ intRange (max p.tile_y 0) (min (p.tile_y + (TETROMINO_SIZE : Int)) H) →
        0 ≤ y ∧ y < H)
    ∧ (∀ y i : Int, 0 ≤ y → y < H → i ∈ rangeDown y 1 → 0 ≤ i - 1 ∧ i < H) := by
  refine ⟨?_, place_foldl_bounds H p cellList g, ?_, ?_⟩
  · obtain ⟨b, hb, _⟩ := checkCollideAux_some H g patt (p.tile_x + dx) (p.tile_y + dy)
      cellList (good_cells (reach_good hre) hpatt dy hdy)
    have hb' : check_collide H g p patt dx dy = some b := hb
    rw [hb']
    rfl
  · intro y hy
    obtain ⟨h1, h2⟩ := intRange_bounds hy
    omega
  · intro y i hy0 hyH hi
    obtain ⟨h1, h2⟩ := rangeDown_bounds hi
    omega

/-- Claim C3 (witness): at the freshly spawned O piece (whose box top is
above row 0), with the right-rotated candidate pattern, kick offset -1 and
downward offset 1 on the empty grid of height 26. -/
theorem no_out_of_bounds_indexing_witness :
    (0 : Int) ≤ 1
    ∧ ((check_collide 26 emptyGrid (spawnPiece 3)
          (rotate_right_pattern (spawnPiece 3).pattern) (-1) 1).isSome = true
      ∧ (∀ a b : Int, place 26 emptyGrid (spawnPiece 3) a b ≠ emptyGrid a b →
          0 ≤ a ∧ a < GRID_WIDTH ∧ 0 ≤ b ∧ b < 26)
      ∧ (∀ y : Int,
          y ∈ intRange (max (spawnPiece 3).tile_y 0)
            (min ((spawnPiece 3).tile_y + (TETROMINO_SIZE : Int)) 26) →
          0 ≤ y ∧ y < 26)
      ∧ (∀ y i : Int, 0 ≤ y → y < 26 → i ∈ rangeDown y 1 → 0 ≤ i - 1 ∧ i < 26)) :=
  ⟨by decide,
   no_out_of_bounds_indexing 26 emptyGrid (spawnPiece 3)
     (rotate_right_pattern (spawnPiece 3).pattern) (-1) 1
     (Reach.spawn ⟨3, by decide⟩) (by decide) (Or.inr (Or.inl rfl))⟩

end Fruitris
